import Mathlib

/-!
Configurator validation: the server collector and the client coordinator.

A shallow embedding of

* `src/server/index.js`: the `POST /api/validate` handler, which applies every rule of the
  rule set to the request body and collects the violations;
* `src/frontend/src/App.jsx`: `clientSideCheck` and `App.onSubmit`.

JavaScript values are embedded as the type `JsVal`.  The predicate evaluator
(`jsonLogic.apply`, an external library) and the rule set (`rules.json`) are parameters of the
handler.  The remote call of `onSubmit` is a parameter as well: a function from the posted
configuration to the outcome of the call.
-/

set_option autoImplicit false

namespace Configurator

/-! ## JavaScript values -/

/-- JavaScript values as they occur in JSON documents and form data.  Numbers are modelled by the
integers: the only fact about a number that the embedded code uses is whether it is zero. -/
inductive JsVal where
  | undefined
  | null
  | bool (b : Bool)
  | num (n : Int)
  | str (s : String)
  | arr (xs : List JsVal)
  | obj (kvs : List (String × JsVal))

namespace JsVal

/-- JavaScript truthiness, the test made by `if (v)` and negated by `!v`: `undefined`, `null`,
`false`, `0` and the empty string are falsy, every other value (arrays and objects included) is
truthy. -/
def truthy : JsVal → Bool
  | undefined => false
  | null => false
  | bool b => b
  | num n => n != 0
  | str s => s != ""
  | arr _ => true
  | obj _ => true

/-- The comparison `v === 'lit'` of a value with a string literal: true exactly when `v` is that
string (strict equality never coerces). -/
def strictEqStr : JsVal → String → Bool
  | str s, lit => s == lit
  | _, _ => false

end JsVal

/-- A plain JavaScript object: its own properties, the first binding of a key being the one that
is read. -/
abbrev JsObject := List (String × JsVal)

/-- Property read `o.key` on a plain object: the value bound to the key, `undefined` when the
object has no such property. -/
def JsObject.get (o : JsObject) (key : String) : JsVal :=
  (List.lookup key o).getD JsVal.undefined

/-! ## Rules, violations, results -/

/-- An entry of `rules.rules`: `{ id, field, message, logic }`. -/
structure Rule where
  id : String
  field : String
  message : String
  logic : JsVal

/-- A violation object.  The server writes `{ id, field, message }`; the client-side check writes
`{ field, message }`, with no `id` property. -/
structure Violation where
  id : Option String
  field : String
  message : String
  deriving DecidableEq, Repr

/-- The body of the response of `/api/validate`: `{ valid, violations }`. -/
structure ValidationResult where
  valid : Bool
  violations : List Violation
  deriving DecidableEq, Repr

/-- The external evaluator `jsonLogic.apply(logic, data)`: it returns a value, or throws an error
whose `message` is the string carried by `Except.error`. -/
abbrev Evaluator := JsVal → JsVal → Except String JsVal

/-! ## `src/server/index.js`: the `/api/validate` handler -/

/-- The violation pushed when the result of a rule is truthy (index.js line 21). -/
def ruleViolation (rule : Rule) : Violation :=
  { id := some rule.id, field := rule.field, message := rule.message }

/-- The violation pushed by the `catch` block (index.js line 25). -/
def errorViolation (rule : Rule) (errMessage : String) : Violation :=
  { id := some rule.id, field := rule.field,
    message := "Rule evaluation error: " ++ errMessage }

/-- One iteration of the loop of index.js lines 17 to 27: the `try`/`catch` around the evaluation
of one rule, pushing at most one violation onto the array. -/
def validateStep (apply : Evaluator) (data : JsVal) (violations : List Violation)
    (rule : Rule) : List Violation :=
  match apply rule.logic data with
  | .ok result =>
    if result.truthy then violations ++ [ruleViolation rule] else violations
  | .error errMessage => violations ++ [errorViolation rule errMessage]

/-- The operand `req.body || {}` of index.js line 14. -/
def requestData (body : JsVal) : JsVal :=
  if body.truthy then body else JsVal.obj []

/-- The array `violations` when the loop of index.js lines 15 to 27 is over. -/
def collectViolations (apply : Evaluator) (rules : List Rule) (data : JsVal) : List Violation :=
  rules.foldl (validateStep apply data) []

/-- The handler of `POST /api/validate` (index.js lines 13 to 30): the JSON it responds with,
for the evaluator `apply`, the rule set `rules` and the request body `body`. -/
def validate (apply : Evaluator) (rules : List Rule) (body : JsVal) : ValidationResult :=
  let data := requestData body
  let violations := collectViolations apply rules data
  { valid := violations.length == 0, violations := violations }

/-- The predicate of `rule` evaluates true on `data`: the evaluator returns, and the value it
returns passes the test `if (result)`. -/
def evaluatesTrue (apply : Evaluator) (data : JsVal) (rule : Rule) : Bool :=
  match apply rule.logic data with
  | .ok result => result.truthy
  | .error _ => false

/-- The evaluation of the predicate of `rule` on `data` throws. -/
def evaluationFails (apply : Evaluator) (data : JsVal) (rule : Rule) : Bool :=
  match apply rule.logic data with
  | .ok _ => false
  | .error _ => true

/-- What one rule contributes to the violation list: nothing, its violation, or the synthetic
violation of a failed evaluation. -/
def ruleOutcome (apply : Evaluator) (data : JsVal) (rule : Rule) : List Violation :=
  match apply rule.logic data with
  | .ok result => if result.truthy then [ruleViolation rule] else []
  | .error errMessage => [errorViolation rule errMessage]

/-- An evaluator for the concrete examples below.  It agrees with json-logic-js on the logic
values used there: a value that is not an object is returned as it is, `{"var": "name"}` reads
the property `name` of the data (`null` when it is missing), and the operator `frobnicate`,
which the library does not define, throws `Unrecognized operation frobnicate`. -/
def sampleApply : Evaluator
  | .obj [("var", .str name)], .obj kvs =>
    match JsObject.get kvs name with
    | .undefined => .ok .null
    | v => .ok v
  | .obj [("frobnicate", _)], _ => .error "Unrecognized operation frobnicate"
  | logic, _ => .ok logic

/-- A rule whose predicate uses an operator the evaluator does not know. -/
def brokenRule : Rule :=
  { id := "r-broken", field := "color", message := "never shown",
    logic := .obj [("frobnicate", .arr [.num 1])] }

/-- A rule whose predicate is the model field itself: truthy as soon as a model is chosen. -/
def modelChosenRule : Rule :=
  { id := "r-model", field := "model", message := "a model is chosen",
    logic := .obj [("var", .str "model")] }

/-- A rule whose predicate is the constant `false`. -/
def neverRule : Rule :=
  { id := "r-never", field := "size", message := "never violated", logic := .bool false }

/-- A rule whose predicate is the constant `true`. -/
def alwaysRule : Rule :=
  { id := "r-always", field := "size", message := "always violated", logic := .bool true }

/-- The configuration `{ model: "A" }` as a request body. -/
def bodyModelA : JsVal := .obj [("model", .str "A")]

/-! ## `src/frontend/src/App.jsx`: `clientSideCheck` -/

/-- The object pushed at App.jsx line 13. -/
def colorViolation : Violation :=
  { id := none, field := "color", message := "Red is not allowed for model C (client check)" }

/-- The object pushed at App.jsx line 16. -/
def sizeViolation : Violation :=
  { id := none, field := "size",
    message := "Size is required for models A and B (client check)" }

/-- The function `clientSideCheck(formData)` of App.jsx lines 10 to 19. -/
def clientSideCheck (formData : JsObject) : List Violation :=
  let violations : List Violation := []
  let violations :=
    if (formData.get "model").strictEqStr "C" && (formData.get "color").strictEqStr "red" then
      violations ++ [colorViolation]
    else violations
  let violations :=
    if ((formData.get "model").strictEqStr "A" || (formData.get "model").strictEqStr "B")
        && !(formData.get "size").truthy then
      violations ++ [sizeViolation]
    else violations
  violations

/-! ### The authoritative predicates, in the words of the specification -/

/-- The comparison `field == "lit"` of the predicate language: a field that is absent, or whose
value is not that very string, does not match (no coercion, no error). -/
def fieldEquals (c : JsObject) (field lit : String) : Bool :=
  match List.lookup field c with
  | some (.str s) => s == lit
  | _ => false

/-- The check `field is absent`: the configuration has no value for the field.  A property set to
`undefined` is not written into the JSON request and counts as absent too. -/
def fieldAbsent (c : JsObject) (field : String) : Bool :=
  match List.lookup field c with
  | none => true
  | some .undefined => true
  | some _ => false

/-- The field is present with one of the falsy values `null`, `false`, `0`, `""`. -/
def fieldFalsy (c : JsObject) (field : String) : Bool :=
  match List.lookup field c with
  | some .null => true
  | some (.bool false) => true
  | some (.num 0) => true
  | some (.str "") => true
  | _ => false

/-- The authoritative predicate of the rule "no red C": `model == "C" and color == "red"`. -/
def authNoRedC (c : JsObject) : Bool :=
  fieldEquals c "model" "C" && fieldEquals c "color" "red"

/-- The authoritative predicate of the rule "size required for A/B":
`(model == "A" or model == "B") and size is absent`. -/
def authSizeRequired (c : JsObject) : Bool :=
  (fieldEquals c "model" "A" || fieldEquals c "model" "B") && fieldAbsent c "size"

/-- The list the specification describes for the local subset: the color entry when "no red C"
holds, followed by the size entry when "size required for A/B" holds. -/
def describedClientCheck (c : JsObject) : List Violation :=
  (if authNoRedC c then [colorViolation] else [])
    ++ (if authSizeRequired c then [sizeViolation] else [])

/-! ## `src/frontend/src/App.jsx`: `App.onSubmit` -/

/-- How the awaited `axios.post` ends: it resolves with the response body `resp.data`, or it
rejects (the call did not complete). -/
inductive RemoteOutcome where
  | response (data : ValidationResult)
  | rejected

/-- The observable actions of `onSubmit`, in program order. -/
inductive Effect where
  | setServerViolations (vs : List Violation)
  | setStatus (s : String)
  | post (url : String) (body : JsObject)
  | alert (msg : String)
  | consoleError

/-- The effect is the remote validation call. -/
def Effect.isPost : Effect → Bool
  | .post _ _ => true
  | _ => false

/-- The React state of `App` that `onSubmit` writes (App.jsx lines 93 and 94). -/
structure AppState where
  serverViolations : List Violation
  status : String
  deriving DecidableEq, Repr

/-- The state of a freshly mounted `App`: `useState([])` and `useState('')`. -/
def AppState.initial : AppState := { serverViolations := [], status := "" }

/-- The address the client posts to (App.jsx line 107). -/
def validateUrl : String := "http://localhost:4000/api/validate"

/-- The handler `onSubmit({ formData })` of App.jsx lines 97 to 120, as the sequence of its
effects; `remote` gives the outcome of the awaited call for the body that is posted. -/
def onSubmit (remote : JsObject → RemoteOutcome) (formData : JsObject) : List Effect :=
  let clientViolations := clientSideCheck formData
  if clientViolations.length != 0 then
    [.setServerViolations clientViolations, .setStatus "client-error"]
  else
    [.setStatus "validating", .post validateUrl formData] ++
      match remote formData with
      | .response data =>
        if data.valid then
          [.setServerViolations [], .setStatus "valid", .alert "Configuration valid!"]
        else
          [.setServerViolations data.violations, .setStatus "server-error"]
      | .rejected => [.consoleError, .setStatus "server-failed"]

/-- The state after one effect: the two setters write their state variable, the other effects
leave the state alone. -/
def applyEffect (s : AppState) : Effect → AppState
  | .setServerViolations vs => { s with serverViolations := vs }
  | .setStatus st => { s with status := st }
  | _ => s

/-- The state of `App` once a submission that started in state `s` has run to its end. -/
def runSubmit (remote : JsObject → RemoteOutcome) (s : AppState) (formData : JsObject) :
    AppState :=
  (onSubmit remote formData).foldl applyEffect s

/-- The status values written by a sequence of effects, in order. -/
def statusesSet (effects : List Effect) : List String :=
  effects.filterMap fun e =>
    match e with
    | .setStatus st => some st
    | _ => none

/-- The statuses a submission passes through: the status it finds, then each status it sets. -/
def statusTrace (remote : JsObject → RemoteOutcome) (s : AppState) (formData : JsObject) :
    List String :=
  s.status :: statusesSet (onSubmit remote formData)

/-- The configuration `{ model: "C", color: "red" }`. -/
def cfgRedC : JsObject := [("model", .str "C"), ("color", .str "red")]

/-- The configuration `{ model: "A" }`. -/
def cfgModelA : JsObject := [("model", .str "A")]

/-- The configuration `{ model: "B" }`. -/
def cfgModelB : JsObject := [("model", .str "B")]

/-- The configuration `{ model: "A", size: "M", color: "blue" }`. -/
def cfgBlueA : JsObject := [("model", .str "A"), ("size", .str "M"), ("color", .str "blue")]

/-- The configuration `{ model: "B", size: "M" }`. -/
def cfgSizedB : JsObject := [("model", .str "B"), ("size", .str "M")]

/-- The configuration `{ model: "A", size: "" }`. -/
def cfgEmptySizeA : JsObject := [("model", .str "A"), ("size", .str "")]

/-- The configuration `{ model: "B", size: 0 }`. -/
def cfgZeroSizeB : JsObject := [("model", .str "B"), ("size", .num 0)]

/-! ## Lemmas on the collector loop -/

theorem validateStep_eq (apply : Evaluator) (data : JsVal) (acc : List Violation) (rule : Rule) :
    validateStep apply data acc rule = acc ++ ruleOutcome apply data rule := by
  unfold validateStep ruleOutcome
  cases h : apply rule.logic data with
  | error e => simp
  | ok v => by_cases ht : v.truthy = true <;> simp [ht]

theorem foldl_validateStep (apply : Evaluator) (data : JsVal) (rules : List Rule) :
    ∀ acc : List Violation,
      rules.foldl (validateStep apply data) acc
        = acc ++ rules.flatMap (ruleOutcome apply data) := by
  induction rules with
  | nil => intro acc; simp
  | cons r rs ih =>
    intro acc
    simp [List.foldl_cons, ih, validateStep_eq, List.flatMap_cons, List.append_assoc]

theorem collectViolations_eq (apply : Evaluator) (rules : List Rule) (data : JsVal) :
    collectViolations apply rules data = rules.flatMap (ruleOutcome apply data) := by
  simp [collectViolations, foldl_validateStep]

theorem collectViolations_append (apply : Evaluator) (xs ys : List Rule) (data : JsVal) :
    collectViolations apply (xs ++ ys) data
      = collectViolations apply xs data ++ collectViolations apply ys data := by
  simp [collectViolations_eq, List.flatMap_append]

theorem ruleOutcome_of_ok (apply : Evaluator) (data : JsVal) (rule : Rule)
    (h : evaluationFails apply data rule = false) :
    ruleOutcome apply data rule
      = if evaluatesTrue apply data rule then [ruleViolation rule] else [] := by
  unfold ruleOutcome evaluatesTrue
  unfold evaluationFails at h
  cases hr : apply rule.logic data with
  | error e => simp [hr] at h
  | ok v => simp

theorem collectViolations_of_ok (apply : Evaluator) (data : JsVal) (rules : List Rule)
    (h : ∀ r ∈ rules, evaluationFails apply data r = false) :
    collectViolations apply rules data
      = (rules.filter (evaluatesTrue apply data)).map ruleViolation := by
  rw [collectViolations_eq]
  induction rules with
  | nil => simp
  | cons r rs ih =>
    have hr := h r (List.mem_cons_self r rs)
    have hrs : ∀ x ∈ rs, evaluationFails apply data x = false :=
      fun x hx => h x (List.mem_cons_of_mem r hx)
    rw [List.flatMap_cons, ih hrs, ruleOutcome_of_ok apply data r hr]
    by_cases ht : evaluatesTrue apply data r = true <;> simp [List.filter_cons, ht]

theorem ruleOutcome_eq_nil_iff (apply : Evaluator) (data : JsVal) (rule : Rule) :
    ruleOutcome apply data rule = []
      ↔ evaluatesTrue apply data rule = false ∧ evaluationFails apply data rule = false := by
  unfold ruleOutcome evaluatesTrue evaluationFails
  cases hr : apply rule.logic data with
  | error e => simp
  | ok v => by_cases ht : v.truthy = true <;> simp [ht]

theorem collectViolations_eq_nil_iff (apply : Evaluator) (rules : List Rule) (data : JsVal) :
    collectViolations apply rules data = []
      ↔ ∀ r ∈ rules,
          evaluatesTrue apply data r = false ∧ evaluationFails apply data r = false := by
  rw [collectViolations_eq]
  induction rules with
  | nil => simp
  | cons r rs ih =>
    rw [List.flatMap_cons, List.append_eq_nil, ih, ruleOutcome_eq_nil_iff]
    simp

theorem ruleOutcome_of_error (apply : Evaluator) (data : JsVal) (rule : Rule) (msg : String)
    (h : apply rule.logic data = .error msg) :
    ruleOutcome apply data rule = [errorViolation rule msg] := by
  simp [ruleOutcome, h]

/-! ## Lemmas on the client-side check -/

theorem strictEqStr_get (c : JsObject) (field lit : String) :
    (JsObject.get c field).strictEqStr lit = fieldEquals c field lit := by
  unfold JsObject.get fieldEquals
  cases h : List.lookup field c with
  | none => simp [JsVal.strictEqStr]
  | some v => cases v <;> simp [JsVal.strictEqStr]

theorem truthy_get_eq_false (c : JsObject) (field : String) :
    (!(JsObject.get c field).truthy) = (fieldAbsent c field || fieldFalsy c field) := by
  unfold JsObject.get fieldAbsent fieldFalsy
  cases h : List.lookup field c with
  | none => simp [JsVal.truthy]
  | some v =>
    cases v with
    | undefined => simp [JsVal.truthy]
    | null => simp [JsVal.truthy]
    | bool b => cases b <;> simp [JsVal.truthy]
    | num n => by_cases hn : n = 0 <;> simp [JsVal.truthy, hn]
    | str t => by_cases ht : t = "" <;> simp [JsVal.truthy, ht]
    | arr xs => simp [JsVal.truthy]
    | obj kvs => simp [JsVal.truthy]

theorem clientSideCheck_eq (c : JsObject) :
    clientSideCheck c
      = (if authNoRedC c then [colorViolation] else [])
        ++ (if (fieldEquals c "model" "A" || fieldEquals c "model" "B")
              && (fieldAbsent c "size" || fieldFalsy c "size")
            then [sizeViolation] else []) := by
  simp only [clientSideCheck, strictEqStr_get, truthy_get_eq_false, authNoRedC]
  by_cases h1 : (fieldEquals c "model" "C" && fieldEquals c "color" "red") = true <;>
    by_cases h2 : ((fieldEquals c "model" "A" || fieldEquals c "model" "B")
              && (fieldAbsent c "size" || fieldFalsy c "size")) = true <;>
    simp [h1, h2]

theorem onSubmit_of_violations (remote : JsObject → RemoteOutcome) (formData : JsObject)
    (h : clientSideCheck formData ≠ []) :
    onSubmit remote formData
      = [.setServerViolations (clientSideCheck formData), .setStatus "client-error"] := by
  have hl : ((clientSideCheck formData).length != 0) = true := by
    simpa [List.length_eq_zero] using h
  simp [onSubmit, hl]

theorem onSubmit_of_clean (remote : JsObject → RemoteOutcome) (formData : JsObject)
    (h : clientSideCheck formData = []) :
    onSubmit remote formData
      = [.setStatus "validating", .post validateUrl formData] ++
          match remote formData with
          | .response data =>
            if data.valid then
              [.setServerViolations [], .setStatus "valid", .alert "Configuration valid!"]
            else
              [.setServerViolations data.violations, .setStatus "server-error"]
          | .rejected => [.consoleError, .setStatus "server-failed"] := by
  simp [onSubmit, h]

/-! ## The collector (`/api/validate`) -/

/-- C1, as stated, fails: on the rule set holding the single rule `brokenRule`, whose predicate
throws, and the empty configuration, no rule has a predicate that evaluates true, and yet the
response has `valid == false` (the `catch` block pushed a violation). -/
theorem validate_valid_iff_no_true_counterexample :
    ¬ ((validate sampleApply [brokenRule] (.obj [])).valid = true
        ↔ ∀ r ∈ [brokenRule], evaluatesTrue sampleApply (requestData (.obj [])) r = false) := by
  decide

/-- C1, amended: for every configuration and every rule set, the response of `/api/validate` has
`valid == true` if and only if no rule has a predicate that evaluates true on the configuration
and no rule has a predicate whose evaluation fails. -/
theorem validate_valid_iff (apply : Evaluator) (rules : List Rule) (body : JsVal) :
    (validate apply rules body).valid = true
      ↔ ∀ r ∈ rules,
          evaluatesTrue apply (requestData body) r = false
            ∧ evaluationFails apply (requestData body) r = false := by
  rw [← collectViolations_eq_nil_iff]
  simp [validate, List.length_eq_zero]

/-- C2: when every predicate of the rule set evaluates without error, the violations of the
response are exactly `{id, field, message}` of the rules whose predicate evaluates true, in the
declared order of the rule set; the reported rules are a sub-sequence of the rule set, so that
no rule is reported twice. -/
theorem validate_violations_of_no_error (apply : Evaluator) (rules : List Rule) (body : JsVal)
    (h : ∀ r ∈ rules, evaluationFails apply (requestData body) r = false) :
    (validate apply rules body).violations
        = (rules.filter (evaluatesTrue apply (requestData body))).map ruleViolation
      ∧ List.Sublist (rules.filter (evaluatesTrue apply (requestData body))) rules := by
  refine ⟨?_, List.filter_sublist rules⟩
  simpa [validate] using collectViolations_of_ok apply (requestData body) rules h

/-- Witness of C2: three rules that evaluate without error on `{ model: "A" }`; the first and the
third are reported, in that order. -/
theorem validate_violations_of_no_error_witness :
    (validate sampleApply [modelChosenRule, neverRule, alwaysRule] bodyModelA).violations
        = ([modelChosenRule, neverRule, alwaysRule].filter
            (evaluatesTrue sampleApply (requestData bodyModelA))).map ruleViolation
      ∧ List.Sublist
          ([modelChosenRule, neverRule, alwaysRule].filter
            (evaluatesTrue sampleApply (requestData bodyModelA)))
          [modelChosenRule, neverRule, alwaysRule] :=
  validate_violations_of_no_error sampleApply [modelChosenRule, neverRule, alwaysRule]
    bodyModelA (by decide)

/-- C3: when exactly one rule, `bad`, has a predicate whose evaluation fails with the description
`msg`, and the rules before it (`pre`) and after it (`post`) evaluate normally, the handler
returns a response: its violations are those of the rules before, then one synthetic violation
with the id and the field of `bad` and the message `Rule evaluation error: ` followed by `msg`,
then those of the rules after; the violations of the other rules are the ones the handler
returns for the rule set without `bad`, in the same order. -/
theorem validate_contains_evaluation_error (apply : Evaluator) (pre post : List Rule)
    (bad : Rule) (body : JsVal) (msg : String)
    (hbad : apply bad.logic (requestData body) = .error msg)
    (hpre : ∀ r ∈ pre, evaluationFails apply (requestData body) r = false)
    (hpost : ∀ r ∈ post, evaluationFails apply (requestData body) r = false) :
    (validate apply (pre ++ bad :: post) body).violations
        = (pre.filter (evaluatesTrue apply (requestData body))).map ruleViolation
          ++ { id := some bad.id, field := bad.field,
               message := "Rule evaluation error: " ++ msg }
          :: (post.filter (evaluatesTrue apply (requestData body))).map ruleViolation
      ∧ (validate apply (pre ++ post) body).violations
        = (pre.filter (evaluatesTrue apply (requestData body))).map ruleViolation
          ++ (post.filter (evaluatesTrue apply (requestData body))).map ruleViolation
      ∧ (validate apply (pre ++ bad :: post) body).valid = false := by
  have hV : (validate apply (pre ++ bad :: post) body).violations
      = (pre.filter (evaluatesTrue apply (requestData body))).map ruleViolation
        ++ errorViolation bad msg
        :: (post.filter (evaluatesTrue apply (requestData body))).map ruleViolation := by
    show collectViolations apply (pre ++ bad :: post) (requestData body) = _
    rw [collectViolations_append, collectViolations_of_ok apply _ pre hpre,
      show bad :: post = [bad] ++ post from rfl, collectViolations_append,
      collectViolations_of_ok apply _ post hpost, collectViolations_eq]
    simp [ruleOutcome_of_error apply _ bad msg hbad]
  refine ⟨hV, ?_, ?_⟩
  · show collectViolations apply (pre ++ post) (requestData body) = _
    rw [collectViolations_append, collectViolations_of_ok apply _ pre hpre,
      collectViolations_of_ok apply _ post hpost]
  · have hne : (validate apply (pre ++ bad :: post) body).violations ≠ [] := by
      rw [hV]; simp
    simpa [validate, List.length_eq_zero] using hne

/-- Witness of C3: the rule set `modelChosenRule, brokenRule, alwaysRule` on `{ model: "A" }`;
only the middle rule fails, with `Unrecognized operation frobnicate`. -/
theorem validate_contains_evaluation_error_witness :
    (validate sampleApply [modelChosenRule, brokenRule, alwaysRule] bodyModelA).violations
      = [ { id := some "r-model", field := "model", message := "a model is chosen" },
          { id := some "r-broken", field := "color",
            message := "Rule evaluation error: Unrecognized operation frobnicate" },
          { id := some "r-always", field := "size", message := "always violated" } ] :=
  (validate_contains_evaluation_error sampleApply [modelChosenRule] [alwaysRule] brokenRule
    bodyModelA "Unrecognized operation frobnicate" rfl (by decide) (by decide)).1

/-! ## The client-side check (`clientSideCheck`) -/

/-- C4, as stated, fails: on `{ model: "A", size: "" }` the client-side check reports the size
violation, while the authoritative predicate `(model == "A" or model == "B") and size is absent`
is false, the size being present. -/
theorem clientSideCheck_subset_sound_counterexample :
    sizeViolation ∈ clientSideCheck cfgEmptySizeA ∧ authSizeRequired cfgEmptySizeA = false := by
  decide

/-- C4, amended: for every configuration, whenever `clientSideCheck` reports the color violation
the authoritative predicate `model == "C" and color == "red"` is true, and whenever it reports
the size violation, model is "A" or "B" and size is absent or is present with one of the falsy
values `null`, `false`, `0`, `""`. -/
theorem clientSideCheck_subset_sound (c : JsObject) :
    (colorViolation ∈ clientSideCheck c → authNoRedC c = true)
      ∧ (sizeViolation ∈ clientSideCheck c →
          (fieldEquals c "model" "A" || fieldEquals c "model" "B") = true
            ∧ (fieldAbsent c "size" = true ∨ fieldFalsy c "size" = true)) := by
  have hne : colorViolation ≠ sizeViolation := by decide
  rw [clientSideCheck_eq]
  constructor
  · intro h
    by_cases h1 : authNoRedC c = true
    · exact h1
    · by_cases h2 : ((fieldEquals c "model" "A" || fieldEquals c "model" "B")
          && (fieldAbsent c "size" || fieldFalsy c "size")) = true
      · simp [h1, h2, hne] at h
      · simp [h1, h2] at h
  · intro h
    by_cases h2 : ((fieldEquals c "model" "A" || fieldEquals c "model" "B")
        && (fieldAbsent c "size" || fieldFalsy c "size")) = true
    · simpa using h2
    · by_cases h1 : authNoRedC c = true
      · simp [h1, h2, hne.symm] at h
      · simp [h1, h2] at h

/-- Witness of C4: `{ model: "C", color: "red" }` gets the color violation and
`{ model: "A", size: "" }` gets the size violation. -/
theorem clientSideCheck_subset_sound_witness :
    (colorViolation ∈ clientSideCheck cfgRedC ∧ authNoRedC cfgRedC = true)
      ∧ (sizeViolation ∈ clientSideCheck cfgEmptySizeA
          ∧ (fieldEquals cfgEmptySizeA "model" "A" || fieldEquals cfgEmptySizeA "model" "B")
              = true
          ∧ (fieldAbsent cfgEmptySizeA "size" = true ∨ fieldFalsy cfgEmptySizeA "size" = true)) :=
  ⟨⟨by decide, (clientSideCheck_subset_sound cfgRedC).1 (by decide)⟩,
    ⟨by decide, (clientSideCheck_subset_sound cfgEmptySizeA).2 (by decide)⟩⟩

/-- C10, as stated, fails: on `{ model: "B", size: 0 }` the size is not absent, so the described
list is empty, but `clientSideCheck` returns the size violation. -/
theorem clientSideCheck_described_counterexample :
    describedClientCheck cfgZeroSizeB = [] ∧ clientSideCheck cfgZeroSizeB = [sizeViolation] := by
  decide

/-- C10, amended: for every configuration, the list returned by `clientSideCheck` is exactly one
violation with field "color" if `model == "C" and color == "red"`, followed by one violation with
field "size" if model is "A" or "B" and size is absent or present with a falsy value (`null`,
`false`, `0`, `""`), and nothing else; it is the color entry alone for
`{ model: "C", color: "red" }`, contains the size entry for `{ model: "A" }`, and is empty for
`{ model: "A", size: "M", color: "blue" }`. -/
theorem clientSideCheck_exact (c : JsObject) :
    clientSideCheck c
        = (if authNoRedC c then [colorViolation] else [])
          ++ (if (fieldEquals c "model" "A" || fieldEquals c "model" "B")
                && (fieldAbsent c "size" || fieldFalsy c "size")
              then [sizeViolation] else [])
      ∧ colorViolation.field = "color" ∧ sizeViolation.field = "size"
      ∧ clientSideCheck cfgRedC = [colorViolation]
      ∧ sizeViolation ∈ clientSideCheck cfgModelA
      ∧ clientSideCheck cfgBlueA = [] :=
  ⟨clientSideCheck_eq c, rfl, rfl, by decide, by decide, by decide⟩

/-! ## The submission handler (`App.onSubmit`) -/

/-- C5: when `clientSideCheck` returns a non-empty list, `onSubmit` ends with status
"client-error", with the violation state equal to the list `clientSideCheck` returned, and none
of its effects is the remote validation call. -/
theorem onSubmit_client_error (remote : JsObject → RemoteOutcome) (s : AppState)
    (formData : JsObject) (h : clientSideCheck formData ≠ []) :
    (runSubmit remote s formData).status = "client-error"
      ∧ (runSubmit remote s formData).serverViolations = clientSideCheck formData
      ∧ ∀ e ∈ onSubmit remote formData, e.isPost = false := by
  simp [runSubmit, onSubmit_of_violations remote formData h, applyEffect, Effect.isPost]

/-- Witness of C5: the configuration `{ model: "C", color: "red" }`, submitted from the initial
state with a remote that would answer "valid". -/
theorem onSubmit_client_error_witness :
    clientSideCheck cfgRedC ≠ []
      ∧ (runSubmit (fun _ => .response ⟨true, []⟩) AppState.initial cfgRedC).status
          = "client-error"
      ∧ (runSubmit (fun _ => .response ⟨true, []⟩) AppState.initial cfgRedC).serverViolations
          = clientSideCheck cfgRedC
      ∧ ∀ e ∈ onSubmit (fun _ => .response ⟨true, []⟩) cfgRedC, e.isPost = false :=
  ⟨by decide,
    onSubmit_client_error (fun _ => .response ⟨true, []⟩) AppState.initial cfgRedC (by decide)⟩

/-- C6, as stated, fails: submitting `{ model: "A", size: "M", color: "blue" }`, which passes the
client-side check, with a remote that answers `{ valid: true, violations: [] }`, sets the
statuses "validating" and "valid"; the status "pending" is never set. -/
theorem onSubmit_pending_counterexample :
    clientSideCheck cfgBlueA = []
      ∧ statusesSet (onSubmit (fun _ => .response ⟨true, []⟩) cfgBlueA)
          = ["validating", "valid"]
      ∧ "pending" ∉ statusTrace (fun _ => .response ⟨true, []⟩) AppState.initial cfgBlueA := by
  decide

/-- C6, amended: when `clientSideCheck` returns no violation and the remote boundary returns the
result `r` (with `r.valid` iff `r.violations` is empty), `onSubmit` first sets status to
"validating", then calls the remote boundary with that configuration (its only remote call), and
ends with the violation state equal to `r.violations` and status "valid" when `r.valid` is true
and "server-error" otherwise. -/
theorem onSubmit_remote_response (remote : JsObject → RemoteOutcome) (s : AppState)
    (formData : JsObject) (r : ValidationResult)
    (hclean : clientSideCheck formData = [])
    (hresp : remote formData = .response r)
    (hvalid : r.valid = true ↔ r.violations = []) :
    (∃ rest, onSubmit remote formData
          = .setStatus "validating" :: .post validateUrl formData :: rest
        ∧ ∀ e ∈ rest, e.isPost = false)
      ∧ (runSubmit remote s formData).serverViolations = r.violations
      ∧ (runSubmit remote s formData).status
          = if r.valid then "valid" else "server-error" := by
  rw [runSubmit, onSubmit_of_clean remote formData hclean, hresp]
  by_cases hv : r.valid = true
  · have hnil : r.violations = [] := hvalid.mp hv
    simp [hv, hnil, applyEffect, Effect.isPost]
  · simp [hv, applyEffect, Effect.isPost]

/-- Witness of C6: `{ model: "A", size: "M", color: "blue" }` submitted while the state still
shows an earlier client error, the server answering with one violation. -/
theorem onSubmit_remote_response_witness :
    (runSubmit (fun _ => .response ⟨false, [ruleViolation alwaysRule]⟩)
        ⟨[colorViolation], "client-error"⟩ cfgBlueA).serverViolations
        = [ruleViolation alwaysRule]
      ∧ (runSubmit (fun _ => .response ⟨false, [ruleViolation alwaysRule]⟩)
          ⟨[colorViolation], "client-error"⟩ cfgBlueA).status = "server-error" :=
  (onSubmit_remote_response (fun _ => .response ⟨false, [ruleViolation alwaysRule]⟩)
    ⟨[colorViolation], "client-error"⟩ cfgBlueA ⟨false, [ruleViolation alwaysRule]⟩
    (by decide) rfl (by decide)).2

/-- C7: when the configuration passes `clientSideCheck` and the remote call fails to complete,
`onSubmit` ends with status "server-failed" and the violation state is exactly what it was
before the submission started. -/
theorem onSubmit_transport_failure (remote : JsObject → RemoteOutcome) (s : AppState)
    (formData : JsObject)
    (hclean : clientSideCheck formData = [])
    (hfail : remote formData = .rejected) :
    (runSubmit remote s formData).status = "server-failed"
      ∧ (runSubmit remote s formData).serverViolations = s.serverViolations := by
  rw [runSubmit, onSubmit_of_clean remote formData hclean, hfail]
  simp [applyEffect]

/-- Witness of C7: `{ model: "B", size: "M" }` submitted while the state holds the violations of
an earlier server answer; the call is rejected and the violations stay. -/
theorem onSubmit_transport_failure_witness :
    (runSubmit (fun _ => .rejected) ⟨[ruleViolation alwaysRule], "server-error"⟩
        cfgSizedB).status = "server-failed"
      ∧ (runSubmit (fun _ => .rejected) ⟨[ruleViolation alwaysRule], "server-error"⟩
          cfgSizedB).serverViolations = [ruleViolation alwaysRule] :=
  onSubmit_transport_failure (fun _ => .rejected) ⟨[ruleViolation alwaysRule], "server-error"⟩
    cfgSizedB (by decide) rfl

/-- C8, as stated, fails: submitting `{ model: "B" }` with a remote call that would be rejected
ends with status "client-error", not "server-failed": the size is missing, the client-side check
reports it, and the remote call is not made. -/
theorem onSubmit_example4_counterexample :
    (runSubmit (fun _ => .rejected) AppState.initial cfgModelB).status = "client-error"
      ∧ (runSubmit (fun _ => .rejected) AppState.initial cfgModelB).status ≠ "server-failed" := by
  decide

/-- C8, amended: submitting `{ model: "B" }` (no color, no size) ends with status "client-error"
and the size violation, whatever the remote would do and without a remote call; a transport
error makes the status resolve to "server-failed" (not "valid", not "server-error") for a
configuration that passes the client-side check, such as `{ model: "B", size: "M" }`. -/
theorem onSubmit_example4 (remote : JsObject → RemoteOutcome) (s : AppState) :
    (runSubmit remote s cfgModelB).status = "client-error"
      ∧ (runSubmit remote s cfgModelB).serverViolations = [sizeViolation]
      ∧ (∀ e ∈ onSubmit remote cfgModelB, e.isPost = false)
      ∧ (runSubmit (fun _ => .rejected) s cfgSizedB).status = "server-failed"
      ∧ (runSubmit (fun _ => .rejected) s cfgSizedB).status ≠ "valid"
      ∧ (runSubmit (fun _ => .rejected) s cfgSizedB).status ≠ "server-error" := by
  have hB : clientSideCheck cfgModelB = [sizeViolation] := by decide
  have hne : clientSideCheck cfgModelB ≠ [] := by decide
  have hS : clientSideCheck cfgSizedB = [] := by decide
  have hst : (runSubmit (fun _ => .rejected) s cfgSizedB).status = "server-failed" := by
    rw [runSubmit, onSubmit_of_clean _ cfgSizedB hS]
    simp [applyEffect]
  refine ⟨?_, ?_, ?_, hst, ?_, ?_⟩
  · simp [runSubmit, onSubmit_of_violations remote cfgModelB hne, applyEffect]
  · simp [runSubmit, onSubmit_of_violations remote cfgModelB hne, applyEffect, hB]
  · simp [onSubmit_of_violations remote cfgModelB hne, Effect.isPost]
  · rw [hst]; decide
  · rw [hst]; decide

/-- C9, as stated, fails: a submission of `{ model: "C", color: "red" }` made when the previous
submission left the status "valid" passes through the statuses "valid", "client-error"; it does
not start from "idle". -/
theorem onSubmit_starts_idle_counterexample :
    statusTrace (fun _ => .rejected) ⟨[], "valid"⟩ cfgRedC = ["valid", "client-error"]
      ∧ (statusTrace (fun _ => .rejected) ⟨[], "valid"⟩ cfgRedC).head? ≠ some "idle" := by
  decide

/-- C9, amended: for every submission, the status is not reset when the run starts (the run
starts from the status that the previous submission left, the empty string on a fresh page), and
the statuses the run sets are either "client-error" alone, or "validating" followed by exactly
one of "valid", "server-error", "server-failed"; no other status value is set, the last status
set is the terminal status, and the terminal status does not depend on the state before the
submission. -/
theorem onSubmit_status_machine (remote : JsObject → RemoteOutcome) (s s' : AppState)
    (formData : JsObject) :
    (statusesSet (onSubmit remote formData) = ["client-error"]
        ∨ statusesSet (onSubmit remote formData) = ["validating", "valid"]
        ∨ statusesSet (onSubmit remote formData) = ["validating", "server-error"]
        ∨ statusesSet (onSubmit remote formData) = ["validating", "server-failed"])
      ∧ (statusTrace remote s formData).head? = some s.status
      ∧ (statusTrace remote s formData).getLast? = some (runSubmit remote s formData).status
      ∧ (runSubmit remote s formData).status = (runSubmit remote s' formData).status
      ∧ AppState.initial.status = "" := by
  by_cases hc : clientSideCheck formData = []
  · rw [statusTrace, runSubmit, runSubmit, onSubmit_of_clean remote formData hc]
    cases hr : remote formData with
    | rejected => simp [statusesSet, applyEffect, AppState.initial]
    | response data =>
      by_cases hv : data.valid = true <;>
        simp [hv, statusesSet, applyEffect, AppState.initial]
  · rw [statusTrace, runSubmit, runSubmit, onSubmit_of_violations remote formData hc]
    simp [statusesSet, applyEffect, AppState.initial]

end Configurator
